import Mathlib

/-!
Lock coordination and authentication loop of slock.

A shallow embedding of `slock.c`: the event loop of `readpw`, the grab retry
loop of `lockscreen`, and the part of `main` that acquires the screens and
hands over to `readpw`.

Conventions of the embedding

* C `int` variables that only ever hold 0 or 1 (`running`, `failure`, `caps`)
  are `Bool`; `unsigned int len` is a `Nat`, additions on it are taken
  modulo `2^32`; `time_t` values are `Int`.
* Everything the X server, libc or the clock answers is an input of the model:
  an event carries the clock reading taken while it is handled and the result
  of `XLookupString`; grab requests are answered by an oracle.
* Calls that only have an effect outside the process (drawing, bell, window
  requests) are recorded in a list of `Call`s, in program order.
-/

namespace Slock

/-! ## Constants of the X11 headers -/

/-- Event code `KeyPress` of `X.h`. -/
def KeyPress : Int := 2

/-- Event code `MotionNotify` of `X.h`. -/
def MotionNotify : Int := 6

/-- Event sub-code `RRScreenChangeNotify` of `randr.h`. -/
def RRScreenChangeNotify : Int := 0

/-- Rotation code `RR_Rotate_90` of `randr.h`. -/
def RR_Rotate_90 : Nat := 2

/-- Rotation code `RR_Rotate_270` of `randr.h`. -/
def RR_Rotate_270 : Nat := 8

/-- Grab status `GrabSuccess` of `X.h`. -/
def GrabSuccess : Int := 0

/-- Grab status `AlreadyGrabbed` of `X.h`. -/
def AlreadyGrabbed : Int := 1

def XK_BackSpace : Nat := 0xff08
def XK_Return : Nat := 0xff0d
def XK_Escape : Nat := 0xff1b
def XK_Select : Nat := 0xff60
def XK_Break : Nat := 0xff6b
def XK_KP_Space : Nat := 0xff80
def XK_KP_Enter : Nat := 0xff8d
def XK_KP_F1 : Nat := 0xff91
def XK_KP_F4 : Nat := 0xff94
def XK_KP_Add : Nat := 0xffab
def XK_KP_0 : Nat := 0xffb0
def XK_KP_9 : Nat := 0xffb9
def XK_KP_Equal : Nat := 0xffbd
def XK_F1 : Nat := 0xffbe
def XK_F35 : Nat := 0xffe0
def XK_Caps_Lock : Nat := 0xffe5
def XK_0 : Nat := 0x30

/-- Predicate `IsKeypadKey` of `Xutil.h`. -/
def IsKeypadKey (keysym : Nat) : Bool :=
  decide (XK_KP_Space ≤ keysym) && decide (keysym ≤ XK_KP_Equal)

/-- Predicate `IsPrivateKeypadKey` of `Xutil.h`. -/
def IsPrivateKeypadKey (keysym : Nat) : Bool :=
  decide (0x11000000 ≤ keysym) && decide (keysym ≤ 0x1100FFFF)

/-- Predicate `IsPFKey` of `Xutil.h`. -/
def IsPFKey (keysym : Nat) : Bool :=
  decide (XK_KP_F1 ≤ keysym) && decide (keysym ≤ XK_KP_F4)

/-- Predicate `IsFunctionKey` of `Xutil.h`. -/
def IsFunctionKey (keysym : Nat) : Bool :=
  decide (XK_F1 ≤ keysym) && decide (keysym ≤ XK_F35)

/-- Predicate `IsMiscFunctionKey` of `Xutil.h`. -/
def IsMiscFunctionKey (keysym : Nat) : Bool :=
  decide (XK_Select ≤ keysym) && decide (keysym ≤ XK_Break)

/-- The libc classification `iscntrl` in the "C" locale, the only locale slock
runs in (it never calls `setlocale`): the bytes 0..31 and 127. -/
def iscntrl (c : Nat) : Bool :=
  decide (c < 32) || decide (c = 127)

/-! ## Data model -/

/-- The anonymous colour enumeration of slock.c (lines 41-48), `NUMCOLS` left out. -/
inductive Color where
  | BACKGROUND
  | INIT
  | INPUT
  | FAILED
  | CAPS
  deriving DecidableEq

/-- The fields of `struct lock` that the modelled code reads: the screen
number, the window, and the size of the window and of the drawable. -/
structure Lock where
  screen : Nat
  win : Nat
  x : Nat
  y : Nat
  deriving DecidableEq

/-- The `struct xrandr` of slock.c, without `errbase` (never read). -/
structure Xrandr where
  active : Int
  evbase : Int
  deriving DecidableEq

/-- The values slock.c takes from `config.h`, a file of the repository that is
not among the sources at hand; they are parameters of the model. Both are C
integers, `failonclear` is used as a truth value. -/
structure Config where
  timetocancel : Int
  failonclear : Int

/-- What `readpw` is called with, together with the globals it reads and the
external `crypt`. `crypt key setting` is `none` when libc returns `NULL`.
C strings are lists of non-zero bytes. -/
structure Env where
  cfg : Config
  lockimmediate : Nat
  rr : Xrandr
  locks : List Lock
  hash : List Nat
  crypt : List Nat → List Nat → Option (List Nat)

/-- One `XEvent` as `readpw` sees it. `now` is what `time(NULL)` returns while
the event is handled; `ksym` and `str` are what `XLookupString` yields for a
key press (`str` are the bytes stored in `buf`, their count is `num`, at most
32); `window`, `width`, `height`, `rotation` are the fields of the event read
as an `XRRScreenChangeNotifyEvent`. -/
structure XEvent where
  type : Int
  now : Int
  ksym : Nat
  str : List Nat
  window : Nat
  width : Nat
  height : Nat
  rotation : Nat
  deriving DecidableEq

/-- The local variables of `readpw` that live across loop iterations, and the
global `locktime`. -/
structure State where
  passwd : List Nat
  len : Nat
  caps : Bool
  running : Bool
  failure : Bool
  oldc : Color
  locktime : Int
  deriving DecidableEq

/-- Calls of `readpw` whose effect is outside the process. -/
inductive Call where
  | XBell
  | fprintf
  | drawlogo (lock : Lock) (color : Color)
  | XResizeWindow (win : Nat) (width : Nat) (height : Nat)
  | XClearWindow (win : Nat)
  | XRaiseWindow (win : Nat)
  deriving DecidableEq

/-! ## readpw -/

/-- The 256 zero bytes `explicit_bzero(&passwd, sizeof(passwd))` leaves. -/
def zeroed : List Nat := List.replicate 256 0

/-- The C string stored at the start of a byte array: the bytes before the
first zero byte. -/
def cstr (bytes : List Nat) : List Nat :=
  bytes.takeWhile (fun b => b != 0)

/-- Copy of `src[0..n)` to `dst[off..off+n)`, as `memcpy(dst + off, src, n)`. -/
def memcpy (dst : List Nat) (off : Nat) (src : List Nat) : Nat → List Nat
  | 0 => dst
  | n + 1 => (memcpy dst off src n).set (off + n) (src.getD n 0)

/-- Lines 213-218: keypad Enter becomes Return, keypad digits become digits. -/
def normalizeKeypad (ksym : Nat) : Nat :=
  if IsKeypadKey ksym then
    if ksym = XK_KP_Enter then XK_Return
    else if XK_KP_0 ≤ ksym ∧ ksym ≤ XK_KP_9 then (ksym - XK_KP_0) + XK_0
    else ksym
  else ksym

/-- Lines 219-223: the key classes that are skipped with `continue`. -/
def ignoredKey (ksym : Nat) : Bool :=
  IsFunctionKey ksym || IsKeypadKey ksym || IsMiscFunctionKey ksym ||
    IsPFKey ksym || IsPrivateKeypadKey ksym

/-- Line 259: the colour computed from `len`, `caps`, `failure` and the
configuration value `failonclear`. -/
def color (cfg : Config) (len : Nat) (caps failure : Bool) : Color :=
  if len ≠ 0 then (if caps then Color.CAPS else Color.INPUT)
  else (if failure || decide (cfg.failonclear ≠ 0) then Color.FAILED else Color.INIT)

/-- Line 209: the value the grace check assigns to `running`, for an event of
type `type` handled at clock reading `now`. -/
def graceRunning (env : Env) (s : State) (ev : XEvent) : Bool :=
  !(decide (ev.now - s.locktime < env.cfg.timetocancel) &&
      (decide (ev.type = MotionNotify) || decide (ev.type = KeyPress)))

/-- Lines 225-258: the `switch (ksym)` of `readpw`, entered with the value of
`running` left by the grace check. -/
def keySwitch (env : Env) (s : State) (running : Bool) (ksym : Nat) (ev : XEvent) :
    State × List Call :=
  if ksym = XK_Return then
    let inputhash := env.crypt (cstr (s.passwd.set s.len 0)) env.hash
    let running1 := match inputhash with
      | none => running
      | some h => h != env.hash
    let diag := match inputhash with
      | none => [Call.fprintf]
      | some _ => []
    ({ s with
        running := running1
        failure := if running1 then true else s.failure
        passwd := zeroed
        len := 0 },
      diag ++ (if running1 then [Call.XBell] else []))
  else if ksym = XK_Escape then
    ({ s with running := running, passwd := zeroed, len := 0 }, [])
  else if ksym = XK_BackSpace then
    if s.len ≠ 0 then
      ({ s with running := running, passwd := s.passwd.set (s.len - 1) 0, len := s.len - 1 }, [])
    else
      ({ s with running := running }, [])
  else if ksym = XK_Caps_Lock then
    ({ s with running := running, caps := !s.caps }, [])
  else
    let num := ev.str.length
    if num ≠ 0 ∧ iscntrl (ev.str.getD 0 0) = false ∧ (s.len + num) % 4294967296 < 256 then
      ({ s with
          running := running
          passwd := memcpy s.passwd s.len ev.str num
          len := (s.len + num) % 4294967296 }, [])
    else
      ({ s with running := running }, [])

/-- Lines 208-209: the value of `running` with which the event is dispatched;
the grace check is made unless `lockimmediate` is set. -/
def dispatchRunning (env : Env) (s : State) (ev : XEvent) : Bool :=
  if env.lockimmediate = 0 then graceRunning env s ev else s.running

/-- Lines 208-284: the body of the `while` loop of `readpw` for one event. -/
def handleEvent (env : Env) (s : State) (ev : XEvent) : State × List Call :=
  let running := dispatchRunning env s ev
  if ev.type = KeyPress then
    let ksym := normalizeKeypad ev.ksym
    if ignoredKey ksym then
      ({ s with running := running }, [])
    else
      let r := keySwitch env s running ksym ev
      let c := color env.cfg r.1.len r.1.caps r.1.failure
      if r.1.running ∧ r.1.oldc ≠ c then
        ({ r.1 with oldc := c }, r.2 ++ env.locks.map (fun l => Call.drawlogo l c))
      else r
  else if env.rr.active ≠ 0 ∧ ev.type = env.rr.evbase + RRScreenChangeNotify then
    match env.locks.find? (fun l => l.win == ev.window) with
    | some l =>
      ({ s with running := running },
        [ (if ev.rotation = RR_Rotate_90 ∨ ev.rotation = RR_Rotate_270 then
            Call.XResizeWindow l.win ev.height ev.width
          else
            Call.XResizeWindow l.win ev.width ev.height),
          Call.XClearWindow l.win ])
    | none => ({ s with running := running }, [])
  else
    ({ s with running := running }, env.locks.map (fun l => Call.XRaiseWindow l.win))

/-- The `while (running && !XNextEvent(dpy, &ev))` loop over the events the
server delivers, in order; `XNextEvent` returns 0 for every delivered event.
The result is the state when the loop stops or the events are used up, with
the calls made. -/
def eventLoop (env : Env) : State → List XEvent → State × List Call
  | s, [] => (s, [])
  | s, ev :: evs =>
    if s.running then
      let r := handleEvent env s ev
      let r2 := eventLoop env r.1 evs
      (r2.1, r.2 ++ r2.2)
    else (s, [])

/-- Lines 198-205: the state in which `readpw` enters its loop. `passwd` is
not initialised by the code, so its 256 bytes are whatever the stack holds
(`stack`, cut or padded to 256 bytes); `indicators` is `some n` when
`XkbGetIndicatorState` succeeds with indicator mask `n`. -/
def initState (stack : List Nat) (indicators : Option Nat) (locktime : Int) : State :=
  { passwd := (stack ++ zeroed).take 256
    len := 0
    caps := match indicators with
      | some n => decide (n % 2 = 1)
      | none => false
    running := true
    failure := false
    oldc := Color.INIT
    locktime := locktime }

/-- The function `readpw`: `some` of the final state and the calls made when
the loop stops within the delivered events, `none` when it is still waiting in
`XNextEvent` after the last of them. -/
def readpw (env : Env) (stack : List Nat) (indicators : Option Nat) (locktime : Int)
    (evs : List XEvent) : Option (State × List Call) :=
  let r := eventLoop env (initState stack indicators locktime) evs
  if r.1.running then none else some r

/-! ## lockscreen -/

/-- The two input devices `lockscreen` grabs. -/
inductive Device where
  | pointer
  | keyboard
  deriving DecidableEq

/-- What the surroundings answer while `lockscreen` runs for one screen:
whether `malloc` succeeds, the status the server returns for the n-th
`XGrabPointer` and the n-th `XGrabKeyboard` request (counted from 0), the
window `XCreateWindow` returns, the size of the display, and the clock
reading taken at line 371. -/
structure ScreenOracle where
  malloc : Bool
  pt : Nat → Int
  kb : Nat → Int
  win : Nat
  width : Nat
  height : Nat
  now : Int

/-- One pass through the body of the retry loop: the status returned to the
pointer request and to the keyboard request, `none` for a request that is
not made in this pass. -/
structure Attempt where
  pt : Option Int
  kb : Option Int
  deriving DecidableEq

/-- The variables `ptgrab` and `kbgrab` of `lockscreen`, the number of
requests made so far for each device, and the passes made so far. -/
structure GrabState where
  ptgrab : Int
  kbgrab : Int
  npt : Nat
  nkb : Nat
  log : List Attempt

/-- Lines 352-361: the two conditional grab requests of one pass. A device
is requested iff its variable does not hold `GrabSuccess`; the answer to a
request is stored in the variable. -/
def grabAttempt (o : ScreenOracle) (g : GrabState) : GrabState :=
  { ptgrab := if g.ptgrab ≠ GrabSuccess then o.pt g.npt else g.ptgrab
    kbgrab := if g.kbgrab ≠ GrabSuccess then o.kb g.nkb else g.kbgrab
    npt := if g.ptgrab ≠ GrabSuccess then g.npt + 1 else g.npt
    nkb := if g.kbgrab ≠ GrabSuccess then g.nkb + 1 else g.nkb
    log := g.log ++
      [{ pt := if g.ptgrab ≠ GrabSuccess then some (o.pt g.npt) else none
         kb := if g.kbgrab ≠ GrabSuccess then some (o.kb g.nkb) else none }] }

/-- Lines 377-378: the condition under which the retry loop is left with
`break`. -/
def grabHardError (g : GrabState) : Bool :=
  (decide (g.ptgrab ≠ AlreadyGrabbed) && decide (g.ptgrab ≠ GrabSuccess)) ||
    (decide (g.kbgrab ≠ AlreadyGrabbed) && decide (g.kbgrab ≠ GrabSuccess))

/-- Lines 351-382: the retry loop with `n` passes left. The flag of the
result tells whether the loop was left through the `return lock` of line 373. -/
def grabLoop (o : ScreenOracle) : Nat → GrabState → Bool × GrabState
  | 0, g => (false, g)
  | n + 1, g =>
    let g1 := grabAttempt o g
    if g1.ptgrab = GrabSuccess ∧ g1.kbgrab = GrabSuccess then (true, g1)
    else if grabHardError g1 then (false, g1)
    else grabLoop o n g1

/-- What a call of `lockscreen` leaves behind: the lock or `NULL`, the global
`locktime`, the passes of the retry loop, and the devices whose grab request
returned `GrabSuccess` (slock.c has no call that gives a grab back). -/
structure LockResult where
  lock : Option Lock
  locktime : Int
  attempts : List Attempt
  granted : List Device

/-- The function `lockscreen`, for its guard (line 302), its retry loop and
its result. `dpy` tells whether the display pointer is non-null. The calls
that create, map and draw the window are left out. -/
def lockscreen (lockimmediate : Nat) (dpy : Bool) (screen : Int) (o : ScreenOracle)
    (locktime : Int) : LockResult :=
  if dpy = false ∨ screen < 0 ∨ o.malloc = false then
    { lock := none, locktime := locktime, attempts := [], granted := [] }
  else
    let r := grabLoop o 6 { ptgrab := -1, kbgrab := -1, npt := 0, nkb := 0, log := [] }
    let granted :=
      (if r.2.ptgrab = GrabSuccess then [Device.pointer] else []) ++
        (if r.2.kbgrab = GrabSuccess then [Device.keyboard] else [])
    if r.1 then
      { lock := some { screen := screen.toNat, win := o.win, x := o.width, y := o.height }
        locktime := if lockimmediate = 0 then o.now else locktime
        attempts := r.2.log
        granted := granted }
    else
      { lock := none, locktime := locktime, attempts := r.2.log, granted := granted }

/-! ## main -/

/-- How the part of `main` before the screens are touched ends (lines
464-511): `-v` prints the version and returns 0; a bad option or a failing
setup call, the check `crypt("", hash)` of lines 492-494 among them, ends the
process through `die`; otherwise control reaches the acquisition of the
screens. -/
inductive Startup where
  | version
  | fatal
  | ready
  deriving DecidableEq

/-- Everything `main` depends on. `version` tells whether option parsing
reaches `-v`; `setupFails` whether a bad option or a setup call of lines
464-511 other than the `crypt` check ends the process. -/
structure MainInput where
  version : Bool
  setupFails : Bool
  lockimmediate : Nat
  cfg : Config
  rr : Xrandr
  hash : List Nat
  crypt : List Nat → List Nat → Option (List Nat)
  nscreens : Nat
  screens : Nat → ScreenOracle
  dpmsCapable : Bool
  dpmsEnable : Bool
  dpmsGetTimeouts : Bool
  standby : Nat
  suspend : Nat
  off : Nat
  dpmsSetTimeouts : Bool
  argc : Nat
  spawnErr : Int
  stack : List Nat
  indicators : Option Nat
  events : List XEvent

/-- The calls of `main` the coordination claims are about, in program order. -/
inductive Step where
  | lockscreen (screen : Nat) (ok : Bool)
  | readpwCall
  | readpwReturn
  deriving DecidableEq

/-- The screen a step acquires, if it is an acquisition. -/
def Step.screen : Step → Option Nat
  | Step.lockscreen s _ => some s
  | _ => none

/-- Lines 464-511 of `main`: the outcome of the part before the screens are
touched. The `crypt` check of lines 492-494 is made on the empty key. -/
def MainInput.startup (inp : MainInput) : Startup :=
  if inp.version = true then Startup.version
  else if inp.setupFails = true ∨ inp.crypt [] inp.hash = none then Startup.fatal
  else Startup.ready

/-- State after the acquisition loop of `main`. -/
structure Acquired where
  locks : List Lock
  locktime : Int
  trace : List Step
  held : List (Nat × Device)

/-- Lines 516-521: the acquisition loop with `n` screens left, next screen `s`. -/
def acquire (inp : MainInput) : Nat → Nat → Int → Acquired
  | 0, _, lt => { locks := [], locktime := lt, trace := [], held := [] }
  | n + 1, s, lt =>
    let r := lockscreen inp.lockimmediate true (s : Int) (inp.screens s) lt
    match r.lock with
    | some l =>
      let a := acquire inp n (s + 1) r.locktime
      { locks := l :: a.locks
        locktime := a.locktime
        trace := Step.lockscreen s true :: a.trace
        held := r.granted.map (fun d => (s, d)) ++ a.held }
    | none =>
      { locks := []
        locktime := r.locktime
        trace := [Step.lockscreen s false]
        held := r.granted.map (fun d => (s, d)) }

/-- What a run of `main` amounts to: the exit status (`none` when the process
is still waiting for events inside `readpw`), the steps taken, and the grabs
obtained and not given back when `main` is left. slock.c has no ungrab call;
on the path through `readpw` the `XCloseDisplay` of line 565 closes the
connection to the server, which gives every grab back. -/
structure MainResult where
  status : Option Nat
  trace : List Step
  held : List (Nat × Device)

/-- The function `main`. -/
def main (inp : MainInput) : MainResult :=
  match inp.startup with
  | Startup.version => { status := some 0, trace := [], held := [] }
  | Startup.fatal => { status := some 1, trace := [], held := [] }
  | Startup.ready =>
    let a := acquire inp inp.nscreens 0 0
    if a.locks.length ≠ inp.nscreens then
      { status := some 1, trace := a.trace, held := a.held }
    else if inp.dpmsCapable = false ∨ inp.dpmsEnable = false ∨ inp.dpmsGetTimeouts = false ∨
        inp.standby = 0 ∨ inp.suspend = 0 ∨ inp.off = 0 ∨ inp.dpmsSetTimeouts = false then
      { status := some 1, trace := a.trace, held := a.held }
    else if 0 < inp.argc ∧ inp.spawnErr ≠ 0 then
      { status := some 1, trace := a.trace, held := a.held }
    else
      let env : Env :=
        { cfg := inp.cfg, lockimmediate := inp.lockimmediate, rr := inp.rr,
          locks := a.locks, hash := inp.hash, crypt := inp.crypt }
      match readpw env inp.stack inp.indicators a.locktime inp.events with
      | none => { status := none, trace := a.trace ++ [Step.readpwCall], held := a.held }
      | some _ =>
        { status := some 0
          trace := a.trace ++ [Step.readpwCall, Step.readpwReturn]
          held := [] }

/-! ## Notions of the specification -/

/-- A Submit event in the words of the specification: a key press whose key
is Return or keypad Enter. -/
def isSubmit (ev : XEvent) : Bool :=
  decide (ev.type = KeyPress) && (decide (ev.ksym = XK_Return) || decide (ev.ksym = XK_KP_Enter))

/-- What the verifier (`crypt`) returns for the buffer terminated at `len`. -/
def verifierOutput (env : Env) (s : State) : Option (List Nat) :=
  env.crypt (cstr (s.passwd.set s.len 0)) env.hash

/-- Some submission of the events `evs`, handled from state `s0` on, has been
rejected, in the words of the specification: one of the events is a Submit
that finds a buffer for which the verifier output is not the stored hash. -/
def rejectedIn (env : Env) (s0 : State) (evs : List XEvent) : Prop :=
  ∃ pre ev post, evs = pre ++ ev :: post ∧ isSubmit ev = true ∧
    verifierOutput env (eventLoop env s0 pre).1 ≠ some env.hash

/-- The latest result of one grab after `j` attempts, in the words of the
specification: nothing (-1) before the first attempt; success once the grab
has returned success; otherwise what the request of attempt `j` returned.
`g n` is the answer to the request numbered `n`, counted from 0. -/
def latestResult (g : Nat → Int) : Nat → Int
  | 0 => -1
  | j + 1 => if latestResult g j = GrabSuccess then GrabSuccess else g j

/-- A grab result that lets the retry loop go on: success or already-grabbed. -/
def retryable (r : Int) : Prop :=
  r = GrabSuccess ∨ r = AlreadyGrabbed

/-- The condition of the specification for `lockscreen` to return a lock:
there is an attempt `k` between 1 and 6 by which both grabs have returned
success, and in every attempt before `k` the latest result of each grab was
success or already-grabbed. -/
def acquiresWithinBudget (o : ScreenOracle) : Prop :=
  ∃ k, 1 ≤ k ∧ k ≤ 6 ∧ latestResult o.pt k = GrabSuccess ∧ latestResult o.kb k = GrabSuccess ∧
    ∀ j, 1 ≤ j → j < k → retryable (latestResult o.pt j) ∧ retryable (latestResult o.kb j)

/-- An attempt in which no request returned a result other than success or
already-grabbed. -/
def attemptRetryable (a : Attempt) : Prop :=
  (∀ r, a.pt = some r → retryable r) ∧ (∀ r, a.kb = some r → retryable r)

/-- A grab that returned success in attempt `a` is not requested in the later
attempt `b`. -/
def notRequestedAgain (a b : Attempt) : Prop :=
  (a.pt = some GrabSuccess → b.pt = none) ∧ (a.kb = some GrabSuccess → b.kb = none)

/-- What the variables of the retry loop hold after `i` passes, in terms of
the answers of the server. -/
def GrabInv (o : ScreenOracle) (i : Nat) (g : GrabState) : Prop :=
  g.ptgrab = latestResult o.pt i ∧ g.kbgrab = latestResult o.kb i ∧
    (g.ptgrab ≠ GrabSuccess → g.npt = i) ∧ (g.kbgrab ≠ GrabSuccess → g.nkb = i)

/-- Whether `lockscreen` returns a lock for screen `s` of a run of `main`. -/
def acquisitionSucceeds (inp : MainInput) (s : Nat) : Bool :=
  (lockscreen inp.lockimmediate true (s : Int) (inp.screens s) 0).lock.isSome

/-! ## Concrete inputs used to exercise the model -/

/-- A stand-in for `crypt`: the hash of a key is the key behind a `$`. -/
def demoCrypt (key _setting : List Nat) : Option (List Nat) :=
  some (36 :: key)

/-- A `crypt` that fails on every key. -/
def failingCrypt (_key _setting : List Nat) : Option (List Nat) :=
  none

/-- Two locked screens with windows 7 and 9. -/
def demoLocks : List Lock :=
  [{ screen := 0, win := 7, x := 1920, y := 1080 }, { screen := 1, win := 9, x := 1280, y := 1024 }]

/-- Grace period of 4 seconds, grace mode on, stored hash of the password "ab". -/
def demoEnv : Env :=
  { cfg := { timetocancel := 4, failonclear := 0 }
    lockimmediate := 0
    rr := { active := 1, evbase := 89 }
    locks := demoLocks
    hash := [36, 97, 98]
    crypt := demoCrypt }

/-- As `demoEnv`, with a `crypt` that returns `NULL`. -/
def brokenCryptEnv : Env :=
  { demoEnv with crypt := failingCrypt }

/-- The state in which `readpw` enters its loop when the stack is zero, caps
lock is off and the screens were locked at clock reading 100. -/
def demoState : State :=
  initState [] (some 0) 100

/-- A key press handled at clock reading `now`. -/
def keyPress (now : Int) (ksym : Nat) (str : List Nat) : XEvent :=
  { type := KeyPress, now := now, ksym := ksym, str := str,
    window := 0, width := 0, height := 0, rotation := 0 }

/-- A pointer motion handled at clock reading `now`. -/
def pointerMotion (now : Int) : XEvent :=
  { type := MotionNotify, now := now, ksym := 0, str := [],
    window := 0, width := 0, height := 0, rotation := 0 }

/-- A screen-change notification of `demoEnv` for `window`. -/
def screenChange (now : Int) (window width height rotation : Nat) : XEvent :=
  { type := 89, now := now, ksym := 0, str := [],
    window := window, width := width, height := height, rotation := rotation }

/-- A screen on which both grabs succeed at once. -/
def grantingScreen : ScreenOracle :=
  { malloc := true, pt := fun _ => GrabSuccess, kb := fun _ => GrabSuccess,
    win := 7, width := 1920, height := 1080, now := 100 }

/-- A screen on which the pointer grab succeeds and the keyboard stays
grabbed by another client. -/
def busyKeyboardScreen : ScreenOracle :=
  { malloc := true, pt := fun _ => GrabSuccess, kb := fun _ => AlreadyGrabbed,
    win := 9, width := 1280, height := 1024, now := 101 }

/-- A screen on which the keyboard is granted at the third request. -/
def slowScreen : ScreenOracle :=
  { malloc := true, pt := fun _ => GrabSuccess,
    kb := fun n => if n < 2 then AlreadyGrabbed else GrabSuccess,
    win := 7, width := 1920, height := 1080, now := 100 }

/-- A run of `main` on `n` screens that are all granted at once, fed `events`. -/
def demoRun (n : Nat) (screens : Nat → ScreenOracle) (events : List XEvent) : MainInput :=
  { version := false
    setupFails := false
    lockimmediate := 0
    cfg := { timetocancel := 4, failonclear := 0 }
    rr := { active := 1, evbase := 89 }
    hash := [36, 97, 98]
    crypt := demoCrypt
    nscreens := n
    screens := screens
    dpmsCapable := true
    dpmsEnable := true
    dpmsGetTimeouts := true
    standby := 600
    suspend := 600
    off := 600
    dpmsSetTimeouts := true
    argc := 0
    spawnErr := 0
    stack := []
    indicators := some 0
    events := events }

/-- Two screens: the first is granted, the second keeps a busy keyboard. -/
def secondScreenFails (s : Nat) : ScreenOracle :=
  if s = 0 then grantingScreen else busyKeyboardScreen

/-! # Theorems -/

/-! ## Facts about single events -/

theorem normalizeKeypad_eq_Return (k : Nat) :
    normalizeKeypad k = XK_Return ↔ (k = XK_Return ∨ k = XK_KP_Enter) := by
  unfold normalizeKeypad IsKeypadKey XK_Return XK_KP_Enter XK_KP_0 XK_KP_9 XK_0
    XK_KP_Space XK_KP_Equal
  split_ifs with h1 h2 h3
  · simp [h2]
  · simp only [Bool.and_eq_true, decide_eq_true_eq] at h1
    constructor
    · intro h; omega
    · intro h; omega
  · simp only [Bool.and_eq_true, decide_eq_true_eq] at h1
    constructor
    · intro h; omega
    · intro h; omega
  · simp only [Bool.and_eq_true, decide_eq_true_eq, not_and, not_le] at h1
    constructor
    · intro h; exact Or.inl h
    · intro h
      rcases h with h | h
      · exact h
      · omega

theorem ignoredKey_Return : ignoredKey XK_Return = false := by decide

theorem isSubmit_iff (ev : XEvent) :
    isSubmit ev = true ↔ ev.type = KeyPress ∧ normalizeKeypad ev.ksym = XK_Return := by
  simp [isSubmit, normalizeKeypad_eq_Return]

/-- The value of `running` the grace check of line 208-209 leaves. -/
theorem graceRunning_eq_false (env : Env) (s : State) (ev : XEvent) :
    graceRunning env s ev = false ↔
      ev.now - s.locktime < env.cfg.timetocancel ∧ (ev.type = MotionNotify ∨ ev.type = KeyPress) := by
  simp [graceRunning]
  tauto

/-- For a key that is not skipped, the redraw of lines 259-265 changes `oldc`
only. -/
theorem handleEvent_key (env : Env) (s : State) (ev : XEvent) (ht : ev.type = KeyPress)
    (hi : ignoredKey (normalizeKeypad ev.ksym) = false) :
    (handleEvent env s ev).1.running =
        (keySwitch env s (dispatchRunning env s ev) (normalizeKeypad ev.ksym) ev).1.running ∧
      (handleEvent env s ev).1.passwd =
        (keySwitch env s (dispatchRunning env s ev) (normalizeKeypad ev.ksym) ev).1.passwd ∧
      (handleEvent env s ev).1.len =
        (keySwitch env s (dispatchRunning env s ev) (normalizeKeypad ev.ksym) ev).1.len ∧
      (handleEvent env s ev).1.caps =
        (keySwitch env s (dispatchRunning env s ev) (normalizeKeypad ev.ksym) ev).1.caps ∧
      (handleEvent env s ev).1.failure =
        (keySwitch env s (dispatchRunning env s ev) (normalizeKeypad ev.ksym) ev).1.failure ∧
      (handleEvent env s ev).1.locktime =
        (keySwitch env s (dispatchRunning env s ev) (normalizeKeypad ev.ksym) ev).1.locktime := by
  unfold handleEvent
  simp only [ht, hi, if_true, Bool.false_eq_true, if_false]
  split_ifs <;> simp

/-- An event that is no key press, or a skipped key, changes `running` only. -/
theorem handleEvent_other (env : Env) (s : State) (ev : XEvent)
    (h : ev.type ≠ KeyPress ∨ ignoredKey (normalizeKeypad ev.ksym) = true) :
    (handleEvent env s ev).1 = { s with running := dispatchRunning env s ev } := by
  unfold handleEvent
  by_cases ht : ev.type = KeyPress
  · have hi : ignoredKey (normalizeKeypad ev.ksym) = true := by
      rcases h with h | h
      · exact absurd ht h
      · exact h
    simp only [ht, hi, if_true]
  · simp only [ht, if_false]
    split_ifs <;> (try split) <;> rfl

/-- Outside the Return case the `switch` leaves `running` as the grace check
set it. -/
theorem keySwitch_running (env : Env) (s : State) (r : Bool) (k : Nat) (ev : XEvent)
    (hk : k ≠ XK_Return) : (keySwitch env s r k ev).1.running = r := by
  unfold keySwitch
  simp only [hk, if_false]
  split_ifs <;> rfl

/-- The Return case of the `switch`. -/
theorem keySwitch_Return (env : Env) (s : State) (r : Bool) (ev : XEvent) :
    (keySwitch env s r XK_Return ev).1.running =
        (match verifierOutput env s with
          | none => r
          | some h => h != env.hash) ∧
      (keySwitch env s r XK_Return ev).1.passwd = zeroed ∧
      (keySwitch env s r XK_Return ev).1.len = 0 ∧
      (keySwitch env s r XK_Return ev).1.caps = s.caps ∧
      (keySwitch env s r XK_Return ev).1.locktime = s.locktime := by
  unfold keySwitch verifierOutput
  simp

/-- The value of `running` after one event. -/
theorem handleEvent_running (env : Env) (s : State) (ev : XEvent) :
    (handleEvent env s ev).1.running =
      if isSubmit ev = true then
        match verifierOutput env s with
        | none => dispatchRunning env s ev
        | some h => h != env.hash
      else dispatchRunning env s ev := by
  by_cases hs : isSubmit ev = true
  · have hk := (isSubmit_iff ev).1 hs
    simp only [hs, if_true]
    rw [(handleEvent_key env s ev hk.1 (by rw [hk.2]; exact ignoredKey_Return)).1, hk.2]
    exact (keySwitch_Return env s _ ev).1
  · simp only [hs]
    have hk : ¬ (ev.type = KeyPress ∧ normalizeKeypad ev.ksym = XK_Return) :=
      fun h => hs ((isSubmit_iff ev).2 h)
    by_cases ho : ev.type ≠ KeyPress ∨ ignoredKey (normalizeKeypad ev.ksym) = true
    · rw [handleEvent_other env s ev ho]
      simp
    · push_neg at ho
      have hi : ignoredKey (normalizeKeypad ev.ksym) = false := by
        simpa using ho.2
      rw [(handleEvent_key env s ev ho.1 hi).1]
      exact keySwitch_running env s _ _ ev (fun h => hk ⟨ho.1, h⟩)

/-- A Submit wipes the buffer, whatever the verifier says. -/
theorem handleEvent_submit_wipes (env : Env) (s : State) (ev : XEvent)
    (hs : isSubmit ev = true) :
    (handleEvent env s ev).1.passwd = zeroed ∧ (handleEvent env s ev).1.len = 0 := by
  have hk := (isSubmit_iff ev).1 hs
  have hi : ignoredKey (normalizeKeypad ev.ksym) = false := by
    rw [hk.2]; exact ignoredKey_Return
  have hkey := handleEvent_key env s ev hk.1 hi
  rw [hk.2] at hkey
  have hret := keySwitch_Return env s (dispatchRunning env s ev) ev
  exact ⟨by rw [hkey.2.1, hret.2.1], by rw [hkey.2.2.1, hret.2.2.1]⟩

/-- One more event at the end of the delivered events. -/
theorem eventLoop_snoc (env : Env) (pre : List XEvent) (ev : XEvent) (s : State) :
    (eventLoop env s (pre ++ [ev])).1 =
      if (eventLoop env s pre).1.running then (handleEvent env (eventLoop env s pre).1 ev).1
      else (eventLoop env s pre).1 := by
  induction pre generalizing s with
  | nil =>
    simp only [List.nil_append, eventLoop]
    split_ifs <;> rfl
  | cons e es ih =>
    simp only [List.cons_append, eventLoop]
    by_cases hs : s.running = true
    · simp only [hs, if_true]
      exact ih _
    · simp only [hs, if_false]
      simp [hs]

/-! ## The authentication loop -/

/-- C1: an event at which the loop of `readpw` stops is either a Submit on
which the output of the verifier for the current buffer equals the stored
hash, or a pointer motion or key press handled inside the grace window with
immediate mode off; and a Submit on which the verifier returns an error
outside the grace window does not stop the loop. -/
theorem readpw_stops_only_on_match_or_grace (env : Env) (s : State) (ev : XEvent)
    (hrun : s.running = true) :
    ((handleEvent env s ev).1.running = false →
        (isSubmit ev = true ∧ verifierOutput env s = some env.hash) ∨
          (env.lockimmediate = 0 ∧ (ev.type = MotionNotify ∨ ev.type = KeyPress) ∧
            ev.now - s.locktime < env.cfg.timetocancel)) ∧
      (isSubmit ev = true → verifierOutput env s = none →
        ¬ (env.lockimmediate = 0 ∧ ev.now - s.locktime < env.cfg.timetocancel) →
        (handleEvent env s ev).1.running = true) := by
  have hgrace : dispatchRunning env s ev = false →
      env.lockimmediate = 0 ∧ (ev.type = MotionNotify ∨ ev.type = KeyPress) ∧
        ev.now - s.locktime < env.cfg.timetocancel := by
    unfold dispatchRunning
    split_ifs with hl
    · intro hg
      have := (graceRunning_eq_false env s ev).1 hg
      exact ⟨hl, this.2, this.1⟩
    · intro hg
      rw [hrun] at hg
      exact absurd hg (by decide)
  rw [handleEvent_running]
  constructor
  · intro hstop
    by_cases hs : isSubmit ev = true
    · simp only [hs, if_true] at hstop
      cases hv : verifierOutput env s with
      | none =>
        rw [hv] at hstop
        exact Or.inr (hgrace hstop)
      | some h =>
        rw [hv] at hstop
        simp only [bne_eq_false_iff_eq] at hstop
        exact Or.inl ⟨hs, by rw [hstop]⟩
    · simp only [hs] at hstop
      exact Or.inr (hgrace hstop)
  · intro hs hv hout
    simp only [hs, if_true, hv]
    by_contra hne
    have hf : dispatchRunning env s ev = false := by simpa using hne
    have := hgrace hf
    exact hout ⟨this.1, this.2.2⟩

/-- Witness for C1: with a failing `crypt`, Return at clock reading 200 (grace
window long over) leaves the loop running. -/
theorem readpw_stops_only_on_match_or_grace_witness :
    (handleEvent brokenCryptEnv demoState (keyPress 200 XK_Return [13])).1.running = true :=
  (readpw_stops_only_on_match_or_grace brokenCryptEnv demoState (keyPress 200 XK_Return [13])
    (by decide)).2 (by decide) (by decide) (by decide)

/-- C3 fails on the code: with immediate mode off, a Return key press handled
one second after locking (grace period 4 seconds) with a buffer that is not
the password does not end the loop; it is treated as a rejected submission. -/
theorem grace_submit_mismatch_keeps_running :
    demoEnv.lockimmediate = 0 ∧
      (keyPress 101 XK_Return [13]).type = KeyPress ∧
      (keyPress 101 XK_Return [13]).now - demoState.locktime < demoEnv.cfg.timetocancel ∧
      demoState.running = true ∧
      (handleEvent demoEnv demoState (keyPress 101 XK_Return [13])).1.running = true ∧
      (handleEvent demoEnv demoState (keyPress 101 XK_Return [13])).1.failure = true := by
  decide

/-- C4, as stated, fails: a key press of the letter a inside the grace window
ends the loop, and `readpw` returns with the letter in `passwd` and `len` 1. -/
theorem grace_keypress_leaves_buffer :
    (readpw demoEnv [] (some 0) 100 [keyPress 101 97 [97]]).map
        (fun r => (r.1.running, r.1.len, r.1.passwd.take 2)) = some (false, 1, [97, 0]) := by
  decide

/-- C4, amended: after every sequence of events, a Submit handled by the loop
leaves `passwd` all zero bytes and `len` 0, so they are so whenever the loop
stops at a Submit (credential match included); a pointer motion leaves
`passwd` and `len` as they were before it, so a cancellation by pointer
motion exits with the buffer it found. -/
theorem loop_exit_buffer (env : Env) (s0 : State) (pre : List XEvent) (ev : XEvent)
    (hrun : (eventLoop env s0 pre).1.running = true) :
    (isSubmit ev = true →
        (eventLoop env s0 (pre ++ [ev])).1.passwd = zeroed ∧
          (eventLoop env s0 (pre ++ [ev])).1.len = 0) ∧
      (ev.type = MotionNotify →
        (eventLoop env s0 (pre ++ [ev])).1.passwd = (eventLoop env s0 pre).1.passwd ∧
          (eventLoop env s0 (pre ++ [ev])).1.len = (eventLoop env s0 pre).1.len) := by
  rw [eventLoop_snoc]
  simp only [hrun, if_true]
  constructor
  · intro hs
    exact handleEvent_submit_wipes env _ ev hs
  · intro hm
    have hne : ev.type ≠ KeyPress := by
      rw [hm]; decide
    rw [handleEvent_other env _ ev (Or.inl hne)]
    exact ⟨rfl, rfl⟩

/-- Witness for C4: typing "ab" after the grace window and pressing keypad
Enter ends the loop with a wiped buffer. -/
theorem loop_exit_buffer_witness :
    (eventLoop demoEnv demoState
        ([keyPress 200 97 [97], keyPress 201 98 [98]] ++ [keyPress 202 XK_KP_Enter [13]])).1.passwd
        = zeroed ∧
      (eventLoop demoEnv demoState
        ([keyPress 200 97 [97], keyPress 201 98 [98]] ++ [keyPress 202 XK_KP_Enter [13]])).1.len
        = 0 :=
  (loop_exit_buffer demoEnv demoState [keyPress 200 97 [97], keyPress 201 98 [98]]
    (keyPress 202 XK_KP_Enter [13]) (by decide)).1 (by decide)

/-- The part of the grace check that holds on the code: with immediate mode
off, a pointer motion or key press inside the grace window ends the loop
unless it is a Submit for which the verifier returns a hash, and outside the
grace window the check leaves `running` set. -/
theorem grace_check_behaviour (env : Env) (s : State) (ev : XEvent)
    (hli : env.lockimmediate = 0) (ht : ev.type = MotionNotify ∨ ev.type = KeyPress) :
    (ev.now - s.locktime < env.cfg.timetocancel →
        (isSubmit ev = false ∨ verifierOutput env s = none) →
        (handleEvent env s ev).1.running = false) ∧
      (env.cfg.timetocancel ≤ ev.now - s.locktime → dispatchRunning env s ev = true) := by
  have hd : ev.now - s.locktime < env.cfg.timetocancel → dispatchRunning env s ev = false := by
    intro hin
    unfold dispatchRunning
    rw [if_pos hli]
    exact (graceRunning_eq_false env s ev).2 ⟨hin, ht⟩
  constructor
  · intro hin hcase
    rw [handleEvent_running]
    by_cases hs : isSubmit ev = true
    · rcases hcase with h | h
      · rw [h] at hs
        exact absurd hs (by decide)
      · simp only [hs, if_true, h]
        exact hd hin
    · simp only [hs]
      exact hd hin
  · intro hout
    unfold dispatchRunning
    rw [if_pos hli]
    have hng : ¬ (ev.now - s.locktime < env.cfg.timetocancel) := not_lt.2 hout
    simp [graceRunning, hng]

/-! ## Topology notifications -/

/-- C9, as stated, fails: a screen-change notification for the window of the
first screen, rotated by 90 degrees, makes `readpw` resize and clear that
window and nothing else: no `drawlogo` call redraws the indicator. -/
theorem screen_change_does_not_redraw :
    (handleEvent demoEnv demoState (screenChange 200 7 800 600 RR_Rotate_90)).2 =
      [Call.XResizeWindow 7 600 800, Call.XClearWindow 7] := by
  decide

/-- C9, amended: on a screen-change notification whose window is that of
surface `i`, `readpw` resizes that window to the reported geometry, width and
height swapped iff the rotation is 90 or 270 degrees, and clears it; these are
the only calls; the state (buffer, `len`, caps, rejection flag, shown colour,
`locktime`, `running`) is unchanged. A notification whose window matches no
surface makes no call and changes nothing. -/
theorem screen_change_effect (env : Env) (s : State) (ev : XEvent)
    (hrun : s.running = true) (hactive : env.rr.active ≠ 0)
    (htype : ev.type = env.rr.evbase + RRScreenChangeNotify)
    (hk : ev.type ≠ KeyPress) (hm : ev.type ≠ MotionNotify) :
    (handleEvent env s ev).1 = s ∧
      (∀ l ∈ env.locks, l.win = ev.window →
        (handleEvent env s ev).2 =
          [ (if ev.rotation = RR_Rotate_90 ∨ ev.rotation = RR_Rotate_270 then
              Call.XResizeWindow ev.window ev.height ev.width
            else Call.XResizeWindow ev.window ev.width ev.height),
            Call.XClearWindow ev.window ]) ∧
      ((∀ l ∈ env.locks, l.win ≠ ev.window) → (handleEvent env s ev).2 = []) := by
  have hd : dispatchRunning env s ev = true := by
    unfold dispatchRunning
    split_ifs
    · simp [graceRunning, hk, hm]
    · exact hrun
  refine ⟨?_, ?_, ?_⟩
  · rw [handleEvent_other env s ev (Or.inl hk), hd, ← hrun]
  · intro l0 hmem hwin
    unfold handleEvent
    simp only [hk, if_false]
    rw [if_pos ⟨hactive, htype⟩]
    cases hf : List.find? (fun l => l.win == ev.window) env.locks with
    | none =>
      have := List.find?_eq_none.1 hf l0 hmem
      simp [hwin] at this
    | some l =>
      have hl : l.win = ev.window := by
        have := List.find?_some hf
        simpa using this
      simp [hl]
  · intro hnone
    unfold handleEvent
    simp only [hk, if_false]
    rw [if_pos ⟨hactive, htype⟩]
    cases hf : List.find? (fun l => l.win == ev.window) env.locks with
    | none => rfl
    | some l =>
      have hl : l.win = ev.window := by
        have := List.find?_some hf
        simpa using this
      exact absurd hl (hnone l (List.mem_of_find?_eq_some hf))

/-- Witness for C9: a notification for window 9, the second surface, with no
rotation, while "a" is in the buffer. -/
theorem screen_change_effect_witness :
    (handleEvent demoEnv (handleEvent demoEnv demoState (keyPress 200 97 [97])).1
        (screenChange 201 9 1024 768 1)).1 =
      (handleEvent demoEnv demoState (keyPress 200 97 [97])).1 :=
  (screen_change_effect demoEnv (handleEvent demoEnv demoState (keyPress 200 97 [97])).1
    (screenChange 201 9 1024 768 1) (by decide) (by decide) (by decide) (by decide)
    (by decide)).1

/-! ## Bounds of the secret-entry buffer -/

theorem memcpy_length (dst : List Nat) (off : Nat) (src : List Nat) (n : Nat) :
    (memcpy dst off src n).length = dst.length := by
  induction n with
  | zero => rfl
  | succ n ih => simp [memcpy, ih]

/-- Byte `i` after `memcpy(dst + off, src, n)` when the copy stays inside `dst`. -/
theorem memcpy_getD (dst : List Nat) (off : Nat) (src : List Nat) (n : Nat)
    (h : off + n ≤ dst.length) (i : Nat) :
    (memcpy dst off src n).getD i 0 =
      if off ≤ i ∧ i < off + n then src.getD (i - off) 0 else dst.getD i 0 := by
  induction n with
  | zero =>
    simp only [memcpy, Nat.add_zero]
    rw [if_neg (by omega)]
  | succ n ih =>
    have ih1 := ih (by omega)
    simp only [memcpy]
    rw [List.getD_eq_getElem?_getD, List.getElem?_set]
    by_cases hi : off + n = i
    · subst hi
      have hlt : off + n < (memcpy dst off src n).length := by
        rw [memcpy_length]; omega
      simp only [if_true, hlt]
      rw [if_pos (by omega)]
      simp
    · simp only [hi, if_false]
      rw [← List.getD_eq_getElem?_getD, ih1]
      by_cases hc : off ≤ i ∧ i < off + n
      · rw [if_pos hc, if_pos (by omega)]
      · rw [if_neg hc, if_neg (by omega)]

/-- The `default` case of the `switch`. -/
theorem keySwitch_default (env : Env) (s : State) (r : Bool) (k : Nat) (ev : XEvent)
    (h1 : k ≠ XK_Return) (h2 : k ≠ XK_Escape) (h3 : k ≠ XK_BackSpace) (h4 : k ≠ XK_Caps_Lock) :
    (keySwitch env s r k ev).1 =
      if ev.str.length ≠ 0 ∧ iscntrl (ev.str.getD 0 0) = false ∧
          (s.len + ev.str.length) % 4294967296 < 256 then
        { s with
            running := r
            passwd := memcpy s.passwd s.len ev.str ev.str.length
            len := (s.len + ev.str.length) % 4294967296 }
      else { s with running := r } := by
  unfold keySwitch
  simp only [h1, h2, h3, h4, if_false]
  split_ifs <;> rfl

theorem zeroed_length : zeroed.length = 256 :=
  List.length_replicate _ _

/-- The `switch` keeps `len` at most 255 and `passwd` 256 bytes long. -/
theorem keySwitch_bounds (env : Env) (s : State) (r : Bool) (k : Nat) (ev : XEvent)
    (hl : s.len ≤ 255) (hp : s.passwd.length = 256) :
    (keySwitch env s r k ev).1.len ≤ 255 ∧ (keySwitch env s r k ev).1.passwd.length = 256 := by
  unfold keySwitch
  split_ifs with h1 h2 h3 h4 h5
  · exact ⟨Nat.zero_le _, zeroed_length⟩
  · exact ⟨Nat.zero_le _, zeroed_length⟩
  · refine ⟨?_, ?_⟩
    · show s.len - 1 ≤ 255
      omega
    · show (s.passwd.set (s.len - 1) 0).length = 256
      rw [List.length_set]
      exact hp
  · exact ⟨hl, hp⟩
  · exact ⟨hl, hp⟩
  · dsimp only
    split_ifs with h6
    · refine ⟨?_, ?_⟩
      · show (s.len + ev.str.length) % 4294967296 ≤ 255
        omega
      · show (memcpy s.passwd s.len ev.str ev.str.length).length = 256
        rw [memcpy_length]
        exact hp
    · exact ⟨hl, hp⟩

/-- One event keeps `len` at most 255 and `passwd` 256 bytes long. -/
theorem handleEvent_bounds (env : Env) (s : State) (ev : XEvent)
    (hl : s.len ≤ 255) (hp : s.passwd.length = 256) :
    (handleEvent env s ev).1.len ≤ 255 ∧ (handleEvent env s ev).1.passwd.length = 256 := by
  by_cases ho : ev.type ≠ KeyPress ∨ ignoredKey (normalizeKeypad ev.ksym) = true
  · rw [handleEvent_other env s ev ho]
    exact ⟨hl, hp⟩
  · push_neg at ho
    have hi : ignoredKey (normalizeKeypad ev.ksym) = false := by simpa using ho.2
    have hkey := handleEvent_key env s ev ho.1 hi
    rw [hkey.2.1, hkey.2.2.1]
    exact ⟨(keySwitch_bounds env s _ _ ev hl hp).1, (keySwitch_bounds env s _ _ ev hl hp).2⟩

/-- The bounds hold in every state the loop reaches. -/
theorem eventLoop_bounds (env : Env) (evs : List XEvent) (s : State)
    (hl : s.len ≤ 255) (hp : s.passwd.length = 256) :
    (eventLoop env s evs).1.len ≤ 255 ∧ (eventLoop env s evs).1.passwd.length = 256 := by
  induction evs generalizing s with
  | nil => exact ⟨hl, hp⟩
  | cons e es ih =>
    simp only [eventLoop]
    split_ifs
    · exact ih _ (handleEvent_bounds env s e hl hp).1 (handleEvent_bounds env s e hl hp).2
    · exact ⟨hl, hp⟩

theorem initState_bounds (stack : List Nat) (indicators : Option Nat) (locktime : Int) :
    (initState stack indicators locktime).len ≤ 255 ∧
      (initState stack indicators locktime).passwd.length = 256 := by
  refine ⟨Nat.zero_le _, ?_⟩
  show ((stack ++ zeroed).take 256).length = 256
  rw [List.length_take, List.length_append, zeroed_length]
  omega

/-- C10, as stated, fails: keypad plus yields one non-control byte and there
is room in the buffer, yet the key is skipped and nothing is appended. -/
theorem keypad_plus_not_appended :
    (keyPress 200 XK_KP_Add [43]).str.length = 1 ∧
      iscntrl ((keyPress 200 XK_KP_Add [43]).str.getD 0 0) = false ∧
      demoState.len + 1 < 256 ∧
      (handleEvent demoEnv demoState (keyPress 200 XK_KP_Add [43])).1.len = demoState.len ∧
      (handleEvent demoEnv demoState (keyPress 200 XK_KP_Add [43])).1.passwd = demoState.passwd := by
  refine ⟨by decide, by decide, by decide, ?_, ?_⟩ <;>
    rw [handleEvent_other demoEnv demoState _ (Or.inr (by decide))]

/-- C10, amended: in every state the loop reaches from the initial state of
`readpw`, `len ≤ 255` and `passwd` has its 256 bytes, so `passwd[len]` is
inside the buffer. A key that is dispatched to the `default` case (not in a
skipped class, and none of Return, Escape, BackSpace, Caps_Lock) whose lookup
yields `num` bytes, `1 ≤ num ≤ 32`, the first one no control character, is
appended at `passwd[len .. len+num)` with `len` increased by `num` iff
`len + num < 256`; otherwise buffer and `len` are unchanged by that key. -/
theorem passwd_bounds :
    (∀ (env : Env) (stack : List Nat) (indicators : Option Nat) (locktime : Int)
        (evs : List XEvent),
        (eventLoop env (initState stack indicators locktime) evs).1.len ≤ 255 ∧
          (eventLoop env (initState stack indicators locktime) evs).1.passwd.length = 256) ∧
      (∀ (env : Env) (s : State) (ev : XEvent), s.len ≤ 255 → s.passwd.length = 256 →
        ev.type = KeyPress → ignoredKey (normalizeKeypad ev.ksym) = false →
        normalizeKeypad ev.ksym ≠ XK_Return → normalizeKeypad ev.ksym ≠ XK_Escape →
        normalizeKeypad ev.ksym ≠ XK_BackSpace → normalizeKeypad ev.ksym ≠ XK_Caps_Lock →
        1 ≤ ev.str.length → ev.str.length ≤ 32 → iscntrl (ev.str.getD 0 0) = false →
        (s.len + ev.str.length < 256 →
          (handleEvent env s ev).1.len = s.len + ev.str.length ∧
            ∀ i, (handleEvent env s ev).1.passwd.getD i 0 =
              if s.len ≤ i ∧ i < s.len + ev.str.length then ev.str.getD (i - s.len) 0
              else s.passwd.getD i 0) ∧
        (¬ s.len + ev.str.length < 256 →
          (handleEvent env s ev).1.len = s.len ∧ (handleEvent env s ev).1.passwd = s.passwd)) := by
  constructor
  · intro env stack indicators locktime evs
    exact eventLoop_bounds env evs _ (initState_bounds stack indicators locktime).1
      (initState_bounds stack indicators locktime).2
  · intro env s ev hl hp ht hi h1 h2 h3 h4 hn1 hn2 hc
    have hkey := handleEvent_key env s ev ht hi
    have hdef := keySwitch_default env s (dispatchRunning env s ev) _ ev h1 h2 h3 h4
    rw [hkey.2.1, hkey.2.2.1, hdef]
    have hmod : (s.len + ev.str.length) % 4294967296 = s.len + ev.str.length := by omega
    rw [hmod]
    constructor
    · intro hroom
      rw [if_pos ⟨by omega, hc, hroom⟩]
      refine ⟨rfl, ?_⟩
      intro i
      exact memcpy_getD s.passwd s.len ev.str ev.str.length (by omega) i
    · intro hfull
      rw [if_neg (fun h => hfull h.2.2)]
      exact ⟨rfl, rfl⟩

/-- Witness for C10: the letter b typed after the letter a is stored at index
1 and `len` becomes 2. -/
theorem passwd_bounds_witness :
    (handleEvent demoEnv (handleEvent demoEnv demoState (keyPress 200 97 [97])).1
        (keyPress 201 98 [98])).1.len = 1 + 1 :=
  ((passwd_bounds.2 demoEnv (handleEvent demoEnv demoState (keyPress 200 97 [97])).1
    (keyPress 201 98 [98]) (by decide)
    (handleEvent_bounds demoEnv demoState (keyPress 200 97 [97]) (initState_bounds _ _ _).1
      (initState_bounds _ _ _).2).2
    (by decide) (by decide) (by decide) (by decide) (by decide)
    (by decide) (by decide) (by decide) (by decide)).1 (by decide)).1

/-! ## The grab retry loop -/

theorem grabAttempt_ptgrab (o : ScreenOracle) (g : GrabState) :
    (grabAttempt o g).ptgrab = if g.ptgrab ≠ GrabSuccess then o.pt g.npt else g.ptgrab :=
  rfl

theorem grabAttempt_kbgrab (o : ScreenOracle) (g : GrabState) :
    (grabAttempt o g).kbgrab = if g.kbgrab ≠ GrabSuccess then o.kb g.nkb else g.kbgrab :=
  rfl

theorem grabAttempt_npt (o : ScreenOracle) (g : GrabState) :
    (grabAttempt o g).npt = if g.ptgrab ≠ GrabSuccess then g.npt + 1 else g.npt :=
  rfl

theorem grabAttempt_nkb (o : ScreenOracle) (g : GrabState) :
    (grabAttempt o g).nkb = if g.kbgrab ≠ GrabSuccess then g.nkb + 1 else g.nkb :=
  rfl

theorem grabAttempt_log (o : ScreenOracle) (g : GrabState) :
    (grabAttempt o g).log = g.log ++
      [{ pt := if g.ptgrab ≠ GrabSuccess then some (o.pt g.npt) else none
         kb := if g.kbgrab ≠ GrabSuccess then some (o.kb g.nkb) else none }] :=
  rfl

theorem grabAttempt_inv (o : ScreenOracle) (i : Nat) (g : GrabState) (h : GrabInv o i g) :
    GrabInv o (i + 1) (grabAttempt o g) := by
  obtain ⟨h1, h2, h3, h4⟩ := h
  refine ⟨?_, ?_, ?_, ?_⟩
  · rw [grabAttempt_ptgrab, latestResult, ← h1]
    by_cases hp : g.ptgrab = GrabSuccess
    · rw [if_neg (not_not.2 hp), if_pos hp, hp]
    · rw [if_pos hp, if_neg hp, h3 hp]
  · rw [grabAttempt_kbgrab, latestResult, ← h2]
    by_cases hk : g.kbgrab = GrabSuccess
    · rw [if_neg (not_not.2 hk), if_pos hk, hk]
    · rw [if_pos hk, if_neg hk, h4 hk]
  · intro hne
    rw [grabAttempt_npt]
    rw [grabAttempt_ptgrab] at hne
    split_ifs with hp
    · rw [h3 hp]
    · rw [if_neg hp] at hne
      exact absurd (not_not.1 hp) hne
  · intro hne
    rw [grabAttempt_nkb]
    rw [grabAttempt_kbgrab] at hne
    split_ifs with hk
    · rw [h4 hk]
    · rw [if_neg hk] at hne
      exact absurd (not_not.1 hk) hne

theorem grabHardError_iff (g : GrabState) :
    grabHardError g = true ↔ ¬ (retryable g.ptgrab ∧ retryable g.kbgrab) := by
  unfold grabHardError retryable
  simp only [Bool.or_eq_true, Bool.and_eq_true, decide_eq_true_eq]
  tauto

/-- The retry loop returns a lock iff some later pass finds both grabs
granted and every pass before it found both retryable. -/
theorem grabLoop_locks_iff (o : ScreenOracle) (n : Nat) :
    ∀ (i : Nat) (g : GrabState), GrabInv o i g →
      ((grabLoop o n g).1 = true ↔
        ∃ k, i < k ∧ k ≤ i + n ∧ latestResult o.pt k = GrabSuccess ∧
          latestResult o.kb k = GrabSuccess ∧
          ∀ j, i < j → j < k →
            retryable (latestResult o.pt j) ∧ retryable (latestResult o.kb j)) := by
  induction n with
  | zero =>
    intro i g _
    simp only [grabLoop]
    constructor
    · intro h; exact absurd h (by simp)
    · rintro ⟨k, h1, h2, _⟩; omega
  | succ n ih =>
    intro i g hinv
    have hinv1 := grabAttempt_inv o i g hinv
    simp only [grabLoop]
    by_cases hboth : (grabAttempt o g).ptgrab = GrabSuccess ∧ (grabAttempt o g).kbgrab = GrabSuccess
    · rw [if_pos hboth]
      constructor
      · intro _
        refine ⟨i + 1, by omega, by omega, ?_, ?_, ?_⟩
        · rw [← hinv1.1]; exact hboth.1
        · rw [← hinv1.2.1]; exact hboth.2
        · intro j hj1 hj2; omega
      · intro _; rfl
    · rw [if_neg hboth]
      by_cases hhard : grabHardError (grabAttempt o g) = true
      · rw [if_pos hhard]
        constructor
        · intro h; exact absurd h (by simp)
        · rintro ⟨k, hk1, hk2, hp, hkb, hall⟩
          exfalso
          by_cases hk : k = i + 1
          · subst hk
            exact hboth ⟨by rw [hinv1.1]; exact hp, by rw [hinv1.2.1]; exact hkb⟩
          · have := hall (i + 1) (by omega) (by omega)
            rw [← hinv1.1, ← hinv1.2.1] at this
            exact (grabHardError_iff _).1 hhard this
      · rw [if_neg hhard]
        have hretry : retryable (grabAttempt o g).ptgrab ∧ retryable (grabAttempt o g).kbgrab := by
          by_contra hc
          exact hhard ((grabHardError_iff _).2 hc)
        rw [ih (i + 1) _ hinv1]
        constructor
        · rintro ⟨k, hk1, hk2, hp, hkb, hall⟩
          refine ⟨k, by omega, by omega, hp, hkb, ?_⟩
          intro j hj1 hj2
          by_cases hj : j = i + 1
          · subst hj
            rw [← hinv1.1, ← hinv1.2.1]
            exact hretry
          · exact hall j (by omega) hj2
        · rintro ⟨k, hk1, hk2, hp, hkb, hall⟩
          have hk : k ≠ i + 1 := by
            intro hk
            subst hk
            exact hboth ⟨by rw [hinv1.1]; exact hp, by rw [hinv1.2.1]; exact hkb⟩
          refine ⟨k, by omega, by omega, hp, hkb, ?_⟩
          intro j hj1 hj2
          exact hall j (by omega) hj2

/-- A lock is returned only with both grabs granted. -/
theorem grabLoop_true (o : ScreenOracle) (n : Nat) :
    ∀ g : GrabState, (grabLoop o n g).1 = true →
      (grabLoop o n g).2.ptgrab = GrabSuccess ∧ (grabLoop o n g).2.kbgrab = GrabSuccess := by
  induction n with
  | zero =>
    intro g h
    exact absurd h (by simp [grabLoop])
  | succ n ih =>
    intro g
    simp only [grabLoop]
    split_ifs with h1 h2
    · intro _; exact h1
    · intro h; exact absurd h (by simp)
    · exact ih _

theorem pairwise_of_forall_mem {α : Type} {P : α → Prop} (l : List α) (h : ∀ x ∈ l, P x) :
    l.Pairwise (fun a _ => P a) := by
  induction l with
  | nil => exact List.Pairwise.nil
  | cons x xs ih =>
    exact List.Pairwise.cons (fun _ _ => h x (List.mem_cons_self _ _))
      (ih (fun y hy => h y (List.mem_cons_of_mem _ hy)))

/-- The passes of the retry loop: a granted device is not requested again, a
pass with a hard error is the last one, and there are at most `n` more passes. -/
theorem grabLoop_log (o : ScreenOracle) (n : Nat) :
    ∀ g : GrabState, (∀ a ∈ g.log, attemptRetryable a) →
      (∀ a ∈ g.log, (a.pt = some GrabSuccess → g.ptgrab = GrabSuccess) ∧
        (a.kb = some GrabSuccess → g.kbgrab = GrabSuccess)) →
      g.log.Pairwise notRequestedAgain →
      (grabLoop o n g).2.log.Pairwise notRequestedAgain ∧
        (grabLoop o n g).2.log.Pairwise (fun a _ => attemptRetryable a) ∧
        (grabLoop o n g).2.log.length ≤ g.log.length + n := by
  induction n with
  | zero =>
    intro g hD _ hQ
    exact ⟨hQ, pairwise_of_forall_mem _ hD, Nat.le_refl _⟩
  | succ n ih =>
    intro g hD hP hQ
    have hQ1 : (grabAttempt o g).log.Pairwise notRequestedAgain := by
      rw [grabAttempt_log]
      refine List.pairwise_append.2 ⟨hQ, List.pairwise_singleton _ _, ?_⟩
      intro x hx y hy
      rw [List.mem_singleton] at hy
      subst hy
      constructor
      · intro hs
        have := (hP x hx).1 hs
        simp [this]
      · intro hs
        have := (hP x hx).2 hs
        simp [this]
    have hR1 : (grabAttempt o g).log.Pairwise (fun a _ => attemptRetryable a) := by
      rw [grabAttempt_log]
      refine List.pairwise_append.2
        ⟨pairwise_of_forall_mem _ hD, List.pairwise_singleton _ _, ?_⟩
      intro x hx _ _
      exact hD x hx
    have hlen : (grabAttempt o g).log.length = g.log.length + 1 := by
      rw [grabAttempt_log, List.length_append]
      rfl
    simp only [grabLoop]
    split_ifs with hboth hhard
    · refine ⟨hQ1, hR1, ?_⟩
      show (grabAttempt o g).log.length ≤ g.log.length + (n + 1)
      omega
    · refine ⟨hQ1, hR1, ?_⟩
      show (grabAttempt o g).log.length ≤ g.log.length + (n + 1)
      omega
    · have hretry : retryable (grabAttempt o g).ptgrab ∧ retryable (grabAttempt o g).kbgrab := by
        by_contra hc
        exact hhard ((grabHardError_iff _).2 hc)
      have hD1 : ∀ a ∈ (grabAttempt o g).log, attemptRetryable a := by
        intro a ha
        rw [grabAttempt_log, List.mem_append, List.mem_singleton] at ha
        rcases ha with ha | ha
        · exact hD a ha
        · subst ha
          constructor
          · intro r hr
            by_cases hp : g.ptgrab = GrabSuccess
            · simp [hp] at hr
            · have h1 := hretry.1
              rw [grabAttempt_ptgrab, if_pos hp] at h1
              simp only [ne_eq, hp, not_false_eq_true, if_true, Option.some.injEq] at hr
              rw [← hr]
              exact h1
          · intro r hr
            by_cases hk : g.kbgrab = GrabSuccess
            · simp [hk] at hr
            · have h1 := hretry.2
              rw [grabAttempt_kbgrab, if_pos hk] at h1
              simp only [ne_eq, hk, not_false_eq_true, if_true, Option.some.injEq] at hr
              rw [← hr]
              exact h1
      have hP1 : ∀ a ∈ (grabAttempt o g).log,
          (a.pt = some GrabSuccess → (grabAttempt o g).ptgrab = GrabSuccess) ∧
            (a.kb = some GrabSuccess → (grabAttempt o g).kbgrab = GrabSuccess) := by
        intro a ha
        rw [grabAttempt_log, List.mem_append, List.mem_singleton] at ha
        rcases ha with ha | ha
        · constructor
          · intro hs
            have := (hP a ha).1 hs
            rw [grabAttempt_ptgrab, if_neg (not_not.2 this)]
            exact this
          · intro hs
            have := (hP a ha).2 hs
            rw [grabAttempt_kbgrab, if_neg (not_not.2 this)]
            exact this
        · subst ha
          constructor
          · intro hs
            by_cases hp : g.ptgrab = GrabSuccess
            · rw [grabAttempt_ptgrab, if_neg (not_not.2 hp)]
              exact hp
            · simp only [ne_eq, hp, not_false_eq_true, if_true, Option.some.injEq] at hs
              rw [grabAttempt_ptgrab, if_pos hp]
              exact hs
          · intro hs
            by_cases hk : g.kbgrab = GrabSuccess
            · rw [grabAttempt_kbgrab, if_neg (not_not.2 hk)]
              exact hk
            · simp only [ne_eq, hk, not_false_eq_true, if_true, Option.some.injEq] at hs
              rw [grabAttempt_kbgrab, if_pos hk]
              exact hs
      have := ih (grabAttempt o g) hD1 hP1 hQ1
      exact ⟨this.1, this.2.1, by omega⟩

/-- The state in which the retry loop is entered satisfies the invariant. -/
theorem grabInv_init (o : ScreenOracle) :
    GrabInv o 0 { ptgrab := -1, kbgrab := -1, npt := 0, nkb := 0, log := [] } :=
  ⟨rfl, rfl, fun _ => rfl, fun _ => rfl⟩

/-- C8: for a call that passes the guard of line 302, `lockscreen` returns a
lock iff there is an attempt `k`, `1 ≤ k ≤ 6`, by which both grabs have
returned success while in every attempt before `k` the latest result of each
grab was success or already-grabbed. Each grab is requested at most 6 times,
is not requested again once it has returned success, and nothing is requested
after an attempt in which a request returned anything else than success or
already-grabbed. -/
theorem lockscreen_retry (lockimmediate : Nat) (screen : Int) (o : ScreenOracle)
    (locktime : Int) (hscreen : 0 ≤ screen) (hmalloc : o.malloc = true) :
    ((lockscreen lockimmediate true screen o locktime).lock.isSome = true ↔
        acquiresWithinBudget o) ∧
      ((lockscreen lockimmediate true screen o locktime).attempts.filter
          (fun a => a.pt.isSome)).length ≤ 6 ∧
      ((lockscreen lockimmediate true screen o locktime).attempts.filter
          (fun a => a.kb.isSome)).length ≤ 6 ∧
      (lockscreen lockimmediate true screen o locktime).attempts.Pairwise notRequestedAgain ∧
      (lockscreen lockimmediate true screen o locktime).attempts.Pairwise
        (fun a _ => attemptRetryable a) := by
  have hguard : ¬ (true = false ∨ screen < 0 ∨ o.malloc = false) := by
    rw [hmalloc]
    simp
    exact hscreen
  have hiff := grabLoop_locks_iff o 6 0 _ (grabInv_init o)
  have hlog := grabLoop_log o 6 { ptgrab := -1, kbgrab := -1, npt := 0, nkb := 0, log := [] }
    (fun a ha => absurd ha (List.not_mem_nil a)) (fun a ha => absurd ha (List.not_mem_nil a))
    List.Pairwise.nil
  have hatt : (lockscreen lockimmediate true screen o locktime).attempts =
      (grabLoop o 6 { ptgrab := -1, kbgrab := -1, npt := 0, nkb := 0, log := [] }).2.log := by
    unfold lockscreen
    rw [if_neg hguard]
    dsimp only
    by_cases h : (grabLoop o 6 { ptgrab := -1, kbgrab := -1, npt := 0, nkb := 0, log := [] }).1
        = true
    · rw [if_pos h]
    · rw [if_neg h]
  have hlock : (lockscreen lockimmediate true screen o locktime).lock.isSome =
      (grabLoop o 6 { ptgrab := -1, kbgrab := -1, npt := 0, nkb := 0, log := [] }).1 := by
    unfold lockscreen
    rw [if_neg hguard]
    dsimp only
    by_cases h : (grabLoop o 6 { ptgrab := -1, kbgrab := -1, npt := 0, nkb := 0, log := [] }).1
        = true
    · rw [if_pos h, h]
      rfl
    · rw [if_neg h]
      simp only [Bool.not_eq_true] at h
      rw [h]
      rfl
  have hlen : (lockscreen lockimmediate true screen o locktime).attempts.length ≤ 6 := by
    rw [hatt]
    have := hlog.2.2
    simpa using this
  refine ⟨?_, ?_, ?_, ?_, ?_⟩
  · rw [hlock, hiff]
    unfold acquiresWithinBudget
    constructor
    · rintro ⟨k, h1, h2, h3, h4, h5⟩
      exact ⟨k, h1, by omega, h3, h4, fun j hj1 hj2 => h5 j (by omega) hj2⟩
    · rintro ⟨k, h1, h2, h3, h4, h5⟩
      exact ⟨k, by omega, by omega, h3, h4, fun j hj1 hj2 => h5 j (by omega) hj2⟩
  · exact le_trans (List.length_filter_le _ _) hlen
  · exact le_trans (List.length_filter_le _ _) hlen
  · rw [hatt]; exact hlog.1
  · rw [hatt]; exact hlog.2.1

/-- Witness for C8: with a keyboard that is granted at the third request,
`lockscreen` returns a lock, so the condition of the specification holds. -/
theorem lockscreen_retry_witness : acquiresWithinBudget slowScreen :=
  (lockscreen_retry 0 0 slowScreen 0 (by decide) (by decide)).1.1 (by decide)

/-! ## The coordinator -/

/-- Neither the lock nor the grabs obtained depend on `lockimmediate` or on
the value of `locktime` at the call. -/
theorem lockscreen_indep (li1 li2 : Nat) (dpy : Bool) (screen : Int) (o : ScreenOracle)
    (lt1 lt2 : Int) :
    (lockscreen li1 dpy screen o lt1).lock = (lockscreen li2 dpy screen o lt2).lock ∧
      (lockscreen li1 dpy screen o lt1).granted = (lockscreen li2 dpy screen o lt2).granted := by
  unfold lockscreen
  by_cases hg : dpy = false ∨ screen < 0 ∨ o.malloc = false
  · rw [if_pos hg, if_pos hg]
    exact ⟨rfl, rfl⟩
  · rw [if_neg hg, if_neg hg]
    dsimp only
    by_cases h : (grabLoop o 6 { ptgrab := -1, kbgrab := -1, npt := 0, nkb := 0, log := [] }).1
        = true
    · rw [if_pos h, if_pos h]
      exact ⟨rfl, rfl⟩
    · rw [if_neg h, if_neg h]
      exact ⟨rfl, rfl⟩

/-- A lock is returned only with both grabs obtained. -/
theorem lockscreen_granted (li : Nat) (dpy : Bool) (screen : Int) (o : ScreenOracle) (lt : Int)
    (h : (lockscreen li dpy screen o lt).lock.isSome = true) :
    (lockscreen li dpy screen o lt).granted = [Device.pointer, Device.keyboard] := by
  revert h
  unfold lockscreen
  by_cases hg : dpy = false ∨ screen < 0 ∨ o.malloc = false
  · rw [if_pos hg]
    intro h
    exact absurd h (by simp)
  · rw [if_neg hg]
    dsimp only
    by_cases h : (grabLoop o 6 { ptgrab := -1, kbgrab := -1, npt := 0, nkb := 0, log := [] }).1
        = true
    · rw [if_pos h]
      intro _
      have := grabLoop_true o 6 _ h
      show (if _ then [Device.pointer] else []) ++ (if _ then [Device.keyboard] else []) = _
      rw [if_pos this.1, if_pos this.2]
      rfl
    · rw [if_neg h]
      intro h2
      exact absurd h2 (by simp)

/-- The acquisition loop with `n` screens left, starting at screen `s`: it
locks the screens `s, s+1, ...` in order up to the first one that fails, and
keeps every grab it obtained. -/
theorem acquire_spec (inp : MainInput) (n : Nat) :
    ∀ (s : Nat) (lt : Int), ∃ k, k ≤ n ∧
      (∀ t, s ≤ t → t < s + k → acquisitionSucceeds inp t = true) ∧
      (k < n → acquisitionSucceeds inp (s + k) = false) ∧
      (acquire inp n s lt).locks.length = k ∧
      (acquire inp n s lt).trace =
        (List.range' s k).map (fun t => Step.lockscreen t true) ++
          (if k < n then [Step.lockscreen (s + k) false] else []) ∧
      (∀ t, s ≤ t → t < s + k →
        (t, Device.pointer) ∈ (acquire inp n s lt).held ∧
          (t, Device.keyboard) ∈ (acquire inp n s lt).held) ∧
      (k < n → ∀ d ∈ (lockscreen inp.lockimmediate true ((s + k : Nat) : Int)
          (inp.screens (s + k)) 0).granted, (s + k, d) ∈ (acquire inp n s lt).held) := by
  induction n with
  | zero =>
    intro s lt
    refine ⟨0, Nat.le_refl _, ?_, ?_, rfl, rfl, ?_, ?_⟩
    · intro t h1 h2; omega
    · intro h; omega
    · intro t h1 h2; omega
    · intro h; omega
  | succ n ih =>
    intro s lt
    have hind := lockscreen_indep inp.lockimmediate inp.lockimmediate true (s : Int)
      (inp.screens s) lt 0
    cases hl : (lockscreen inp.lockimmediate true (s : Int) (inp.screens s) lt).lock with
    | none =>
      have hfail : acquisitionSucceeds inp s = false := by
        unfold acquisitionSucceeds
        rw [← hind.1, hl]
        rfl
      refine ⟨0, Nat.zero_le _, ?_, ?_, ?_, ?_, ?_, ?_⟩
      · intro t h1 h2; omega
      · intro _; exact hfail
      · simp only [acquire, hl]
        rfl
      · simp only [acquire, hl]
        rw [if_pos (Nat.succ_pos n)]
        rfl
      · intro t h1 h2; omega
      · intro _ d hd
        simp only [acquire, hl]
        rw [Nat.add_zero] at hd ⊢
        rw [← hind.2] at hd
        exact List.mem_map.2 ⟨d, hd, rfl⟩
    | some l =>
      have hok : acquisitionSucceeds inp s = true := by
        unfold acquisitionSucceeds
        rw [← hind.1, hl]
        rfl
      have hgr := lockscreen_granted inp.lockimmediate true (s : Int) (inp.screens s) lt
        (by rw [hl]; rfl)
      obtain ⟨k, hk1, hk2, hk3, hk4, hk5, hk6, hk7⟩ :=
        ih (s + 1) (lockscreen inp.lockimmediate true (s : Int) (inp.screens s) lt).locktime
      refine ⟨k + 1, by omega, ?_, ?_, ?_, ?_, ?_, ?_⟩
      · intro t h1 h2
        by_cases ht : t = s
        · rw [ht]; exact hok
        · exact hk2 t (by omega) (by omega)
      · intro h
        have := hk3 (by omega)
        rw [show s + (k + 1) = s + 1 + k by omega]
        exact this
      · simp only [acquire, hl, List.length_cons, hk4]
      · simp only [acquire, hl, hk5]
        rw [List.range'_succ, List.map_cons, List.cons_append]
        rw [show s + (k + 1) = s + 1 + k by omega]
        have : (k + 1 < n + 1) = (k < n) := by
          apply propext
          omega
        simp only [this]
      · intro t h1 h2
        simp only [acquire, hl, hgr]
        by_cases ht : t = s
        · subst ht
          simp
        · have := hk6 t (by omega) (by omega)
          constructor
          · exact List.mem_append_right _ this.1
          · exact List.mem_append_right _ this.2
      · intro h d hd
        simp only [acquire, hl]
        rw [show s + (k + 1) = s + 1 + k by omega] at hd ⊢
        exact List.mem_append_right _ (hk7 (by omega) d hd)

/-- A run that reaches the screens has passed the `crypt` check of lines
492-494. -/
theorem ready_crypt (inp : MainInput) (hready : inp.startup = Startup.ready) :
    inp.crypt [] inp.hash ≠ none := by
  intro hc
  unfold MainInput.startup at hready
  rw [if_pos (Or.inr hc)] at hready
  split_ifs at hready

/-- The run of `main` from the acquisition loop on: the steps are those of
the acquisition loop followed by the call of `readpw`, if it is reached, and
its return; when an acquisition fails the grabs held are those the
acquisition loop obtained; after the return of `readpw` none is held. -/
theorem main_after_acquire (inp : MainInput) (hready : inp.startup = Startup.ready) :
    ((acquire inp inp.nscreens 0 0).locks.length ≠ inp.nscreens →
        (main inp).held = (acquire inp inp.nscreens 0 0).held) ∧
      ((main inp).status = some 0 → (main inp).held = []) ∧
      ∃ rest, (main inp).trace = (acquire inp inp.nscreens 0 0).trace ++ rest ∧
        (rest = [] ∨ rest = [Step.readpwCall] ∨ rest = [Step.readpwCall, Step.readpwReturn]) ∧
        (rest ≠ [] → (acquire inp inp.nscreens 0 0).locks.length = inp.nscreens) ∧
        ((acquire inp inp.nscreens 0 0).locks.length ≠ inp.nscreens →
          (main inp).status = some 1) ∧
        ((main inp).status = some 0 → rest = [Step.readpwCall, Step.readpwReturn]) := by
  unfold main
  rw [hready]
  dsimp only
  by_cases hlen : (acquire inp inp.nscreens 0 0).locks.length ≠ inp.nscreens
  · rw [if_pos hlen]
    exact ⟨fun _ => rfl, fun h => absurd h (by simp), [], (List.append_nil _).symm, Or.inl rfl,
      fun h => absurd rfl h, fun _ => rfl, fun h => absurd h (by simp)⟩
  · rw [if_neg hlen]
    by_cases hd : inp.dpmsCapable = false ∨ inp.dpmsEnable = false ∨
        inp.dpmsGetTimeouts = false ∨ inp.standby = 0 ∨ inp.suspend = 0 ∨ inp.off = 0 ∨
        inp.dpmsSetTimeouts = false
    · rw [if_pos hd]
      exact ⟨fun h => absurd h hlen, fun h => absurd h (by simp), [], (List.append_nil _).symm,
        Or.inl rfl, fun h => absurd rfl h, fun h => absurd h hlen, fun h => absurd h (by simp)⟩
    · rw [if_neg hd]
      by_cases hs : 0 < inp.argc ∧ inp.spawnErr ≠ 0
      · rw [if_pos hs]
        exact ⟨fun h => absurd h hlen, fun h => absurd h (by simp), [],
          (List.append_nil _).symm, Or.inl rfl, fun h => absurd rfl h, fun h => absurd h hlen,
          fun h => absurd h (by simp)⟩
      · rw [if_neg hs]
        cases hr : readpw
            { cfg := inp.cfg, lockimmediate := inp.lockimmediate, rr := inp.rr,
              locks := (acquire inp inp.nscreens 0 0).locks, hash := inp.hash,
              crypt := inp.crypt }
            inp.stack inp.indicators (acquire inp inp.nscreens 0 0).locktime inp.events with
        | none =>
          exact ⟨fun h => absurd h hlen, fun h => absurd h (by simp), [Step.readpwCall], rfl,
            Or.inr (Or.inl rfl), fun _ => not_not.1 hlen, fun h => absurd h hlen,
            fun h => absurd h (by simp)⟩
        | some r =>
          exact ⟨fun h => absurd h hlen, fun _ => rfl, [Step.readpwCall, Step.readpwReturn], rfl,
            Or.inr (Or.inr rfl), fun _ => not_not.1 hlen, fun h => absurd h hlen, fun _ => rfl⟩

/-- The run of `main` from the acquisition loop on, in terms of the number `k`
of screens locked before the first failure. -/
theorem main_ready (inp : MainInput) (hready : inp.startup = Startup.ready) :
    ∃ k, k ≤ inp.nscreens ∧
      (∀ t, t < k → acquisitionSucceeds inp t = true) ∧
      (k < inp.nscreens → acquisitionSucceeds inp k = false) ∧
      (k < inp.nscreens → ∀ t, t < k →
        (t, Device.pointer) ∈ (main inp).held ∧ (t, Device.keyboard) ∈ (main inp).held) ∧
      (k < inp.nscreens → ∀ d ∈ (lockscreen inp.lockimmediate true ((k : Nat) : Int)
          (inp.screens k) 0).granted, (k, d) ∈ (main inp).held) ∧
      ∃ rest, (main inp).trace =
          (List.range k).map (fun t => Step.lockscreen t true) ++
            (if k < inp.nscreens then [Step.lockscreen k false] else []) ++ rest ∧
        (rest = [] ∨ rest = [Step.readpwCall] ∨ rest = [Step.readpwCall, Step.readpwReturn]) ∧
        (rest ≠ [] → k = inp.nscreens) ∧
        (k < inp.nscreens → (main inp).status = some 1) ∧
        ((main inp).status = some 0 → rest = [Step.readpwCall, Step.readpwReturn]) := by
  obtain ⟨k, hk1, hk2, hk3, hk4, hk5, hk6, hk7⟩ := acquire_spec inp inp.nscreens 0 0
  simp only [Nat.zero_add, Nat.zero_le, true_implies, ← List.range_eq_range'] at hk2 hk3 hk5 hk6 hk7
  obtain ⟨hheld, _, rest, hr1, hr2, hr3, hr4, hr5⟩ := main_after_acquire inp hready
  refine ⟨k, hk1, hk2, hk3, ?_, ?_, rest, ?_, hr2, ?_, ?_, hr5⟩
  · intro hk
    rw [hheld (by rw [hk4]; omega)]
    exact hk6
  · intro hk
    rw [hheld (by rw [hk4]; omega)]
    exact hk7 hk
  · rw [hr1, hk5]
  · intro hne
    rw [← hk4]
    exact hr3 hne
  · intro hk
    apply hr4
    rw [hk4]
    omega

/-- C6: in a run of `main` that reaches the screens, `lockscreen` is called
for the screens 0, 1, ... in index order and for none after the first that
fails; `readpw` is entered only when all `nscreens` acquisitions succeeded;
when one fails the exit status is 1 and `readpw` is never called; and exit
status 0 is returned only with the return of `readpw` as the last step. -/
theorem main_all_or_nothing (inp : MainInput) (hready : inp.startup = Startup.ready) :
    ∃ k, k ≤ inp.nscreens ∧
      (∀ t, t < k → acquisitionSucceeds inp t = true) ∧
      (k < inp.nscreens → acquisitionSucceeds inp k = false) ∧
      ∃ rest, (main inp).trace =
          (List.range k).map (fun t => Step.lockscreen t true) ++
            (if k < inp.nscreens then [Step.lockscreen k false] else []) ++ rest ∧
        (rest = [] ∨ rest = [Step.readpwCall] ∨ rest = [Step.readpwCall, Step.readpwReturn]) ∧
        (rest ≠ [] → k = inp.nscreens) ∧
        (k < inp.nscreens → (main inp).status = some 1 ∧ rest = []) ∧
        ((main inp).status = some 0 →
          k = inp.nscreens ∧ rest = [Step.readpwCall, Step.readpwReturn]) := by
  obtain ⟨k, h1, h2, h3, _, _, rest, h4, h5, h6, h7, h8⟩ := main_ready inp hready
  refine ⟨k, h1, h2, h3, rest, h4, h5, h6, ?_, ?_⟩
  · intro hk
    refine ⟨h7 hk, ?_⟩
    by_contra hne
    have := h6 hne
    omega
  · intro hs
    have hr := h8 hs
    exact ⟨h6 (by rw [hr]; simp), hr⟩

/-- Witness for C6: two screens, the second fails; the run is the two
acquisitions and exit status 1. -/
theorem main_all_or_nothing_witness :
    ∃ k, k ≤ (demoRun 2 secondScreenFails []).nscreens ∧
      (∀ t, t < k → acquisitionSucceeds (demoRun 2 secondScreenFails []) t = true) ∧
      (k < (demoRun 2 secondScreenFails []).nscreens →
        acquisitionSucceeds (demoRun 2 secondScreenFails []) k = false) ∧
      ∃ rest, (main (demoRun 2 secondScreenFails [])).trace =
          (List.range k).map (fun t => Step.lockscreen t true) ++
            (if k < (demoRun 2 secondScreenFails []).nscreens then [Step.lockscreen k false]
              else []) ++ rest ∧
        (rest = [] ∨ rest = [Step.readpwCall] ∨ rest = [Step.readpwCall, Step.readpwReturn]) ∧
        (rest ≠ [] → k = (demoRun 2 secondScreenFails []).nscreens) ∧
        (k < (demoRun 2 secondScreenFails []).nscreens →
          (main (demoRun 2 secondScreenFails [])).status = some 1 ∧ rest = []) ∧
        ((main (demoRun 2 secondScreenFails [])).status = some 0 →
          k = (demoRun 2 secondScreenFails []).nscreens ∧
            rest = [Step.readpwCall, Step.readpwReturn]) :=
  main_all_or_nothing (demoRun 2 secondScreenFails []) rfl

/-- C7, as stated, fails: with two screens of which the second cannot grab
the keyboard, `main` returns 1 while the first screen still holds both grabs
and the second its pointer grab. -/
theorem failed_session_still_holds_grabs :
    (main (demoRun 2 secondScreenFails [])).status = some 1 ∧
      (main (demoRun 2 secondScreenFails [])).held =
        [(0, Device.pointer), (0, Device.keyboard), (1, Device.pointer)] := by
  decide

/-- C7, amended: in every run in which the acquisition of some surface fails,
`main` returns exit status 1 without calling `readpw` and without giving back
any grab: there is a first failing surface `k`; every surface before it holds
its pointer and keyboard grab when `main` returns, and surface `k` holds
whatever grab it obtained before failing. -/
theorem failed_acquisition_keeps_grabs (inp : MainInput) (hready : inp.startup = Startup.ready)
    (hfail : ∃ s, s < inp.nscreens ∧ acquisitionSucceeds inp s = false) :
    (main inp).status = some 1 ∧ Step.readpwCall ∉ (main inp).trace ∧
      ∃ k, k < inp.nscreens ∧ acquisitionSucceeds inp k = false ∧
        (∀ t, t < k → acquisitionSucceeds inp t = true ∧
          (t, Device.pointer) ∈ (main inp).held ∧ (t, Device.keyboard) ∈ (main inp).held) ∧
        (∀ d ∈ (lockscreen inp.lockimmediate true ((k : Nat) : Int) (inp.screens k) 0).granted,
          (k, d) ∈ (main inp).held) := by
  obtain ⟨k, h1, h2, h3, h4, h5, rest, h6, _, h8, h9, _⟩ := main_ready inp hready
  obtain ⟨s, hs1, hs2⟩ := hfail
  have hk : k < inp.nscreens := by
    by_contra hc
    have := h2 s (by omega)
    rw [hs2] at this
    exact absurd this (by decide)
  have hrest : rest = [] := by
    by_contra hne
    have := h8 hne
    omega
  refine ⟨h9 hk, ?_, k, hk, h3 hk, fun t ht => ⟨h2 t ht, h4 hk t ht⟩, h5 hk⟩
  rw [h6, hrest, if_pos hk]
  simp

/-- Witness for C7: two screens, the second cannot grab the keyboard. -/
theorem failed_acquisition_keeps_grabs_witness :
    (main (demoRun 2 secondScreenFails [])).status = some 1 ∧
      Step.readpwCall ∉ (main (demoRun 2 secondScreenFails [])).trace :=
  ⟨(failed_acquisition_keeps_grabs (demoRun 2 secondScreenFails []) rfl
      ⟨1, by decide, by decide⟩).1,
    (failed_acquisition_keeps_grabs (demoRun 2 secondScreenFails []) rfl
      ⟨1, by decide, by decide⟩).2.1⟩

end Slock
